import Mathlib

/-!
Verification of the Netlify PIX backend function
(`netlify/functions/pix-backend-function.js`).

The JavaScript source is shallowly embedded: the module-level token cache
becomes explicit state passing, `fetch` results are supplied through oracle
values (`Except String HttpResp`, the `error` case being a thrown network
failure), and the outcome of `JSON.parse` on the request body is likewise an
oracle (`Except String Json`, the `error` case carrying a parse-failure
message).  JavaScript truthiness, the `||` operator, property access on
non-objects (including the `TypeError` thrown when reading a property of
`null`), and `JSON.stringify`'s dropping of `undefined`-valued keys are
modelled explicitly.
-/

namespace PixBackend

/-- JSON values, as produced by `JSON.parse`. -/
inductive Json where
  | null : Json
  | bool : Bool → Json
  | num : Int → Json
  | str : String → Json
  | arr : List Json → Json
  | obj : List (String × Json) → Json
deriving Repr

/-- JavaScript truthiness of a defined value.  `null`, `false`, `0` and the
empty string are falsy; every object and array is truthy. -/
def truthy : Json → Bool
  | .null => false
  | .bool b => b
  | .num n => decide (n ≠ 0)
  | .str s => decide (s ≠ "")
  | .arr _ => true
  | .obj _ => true

/-- Truthiness of a possibly-`undefined` value (`none` = `undefined`). -/
def truthyOpt : Option Json → Bool
  | none => false
  | some j => truthy j

/-- Truthiness of an environment variable: absent or empty is falsy. -/
def truthyStr : Option String → Bool
  | none => false
  | some s => decide (s ≠ "")

/-- First-match lookup in a JSON object's field list. -/
def lookupField : List (String × Json) → String → Option Json
  | [], _ => none
  | (k, v) :: rest, key => if k = key then some v else lookupField rest key

/-- Property access `j.k`: fields of objects; `undefined` on any other
defined value.  (Access on `null` throws and is handled at each use site.) -/
def getField : Json → String → Option Json
  | .obj fields, key => lookupField fields key
  | _, _ => none

/-- The JavaScript `a || b`: `a` if truthy, otherwise `b` (even if falsy). -/
def jsOr (a b : Option Json) : Option Json :=
  if truthyOpt a then a else b

/-- Key/value pair in a `JSON.stringify`d object literal: the key is dropped
when the value is `undefined`, mirroring `JSON.stringify`. -/
def optField (k : String) (v : Option Json) : List (String × Json) :=
  match v with
  | none => []
  | some j => [(k, j)]

/-- An HTTP response as seen through `node-fetch`: status code, the result of
`.json()` (`error` = the body was not valid JSON), and the raw text. -/
structure HttpResp where
  status : Nat
  jsonBody : Except String Json
  rawText : String

/-- `response.ok` from fetch: status in the inclusive range 200–299. -/
def statusOk (s : Nat) : Bool :=
  decide (200 ≤ s ∧ s < 300)

/-- The module-level token cache (`cachedToken`, `tokenExpiry`); `none`
models `null`.  The expiry is a millisecond timestamp. -/
structure AuthCache where
  cachedToken : Option Json
  tokenExpiry : Option Int
deriving Repr

/-- Process configuration: the two Instapay credentials from the
environment, `none` when the variable is unset. -/
structure Env where
  clientId : Option String
  clientSecret : Option String

/-- The cache-validity test `cachedToken && tokenExpiry && new Date() < tokenExpiry`:
the token must be truthy, the expiry non-`null`, and the current time
strictly before it. -/
def cacheHit (st : AuthCache) (now : Int) : Bool :=
  truthyOpt st.cachedToken &&
    (match st.tokenExpiry with
     | some e => decide (now < e)
     | none => false)

/-- The 55-minute cache lifetime, in milliseconds. -/
def MS55 : Int := 55 * 60 * 1000

/-- Result of one call to `authenticate`: the returned token or thrown error
message, the cache afterwards, and how many login requests went out. -/
structure AuthResult where
  outcome : Except String Json
  cache : AuthCache
  loginCalls : Nat
deriving Repr

/-- The `authenticate` function.  `loginFetch` is the oracle for the one
possible `fetch` to `/api/auth/login` (`error` = network failure thrown). -/
def authenticate (env : Env) (st : AuthCache) (now : Int)
    (loginFetch : Except String HttpResp) : AuthResult :=
  if cacheHit st now then
    { outcome := .ok (st.cachedToken.getD .null), cache := st, loginCalls := 0 }
  else if !truthyStr env.clientId || !truthyStr env.clientSecret then
    { outcome := .error "Credenciais da Instapay (INSTAPAY_CLIENT_ID ou INSTAPAY_CLIENT_SECRET) não configuradas nas Variáveis de Ambiente do Netlify.",
      cache := st, loginCalls := 0 }
  else
    match loginFetch with
    | .error msg => { outcome := .error msg, cache := st, loginCalls := 1 }
    | .ok resp =>
      if !statusOk resp.status then
        { outcome := .error ("Falha na autenticação (Status " ++ toString resp.status ++ "): " ++ resp.rawText),
          cache := st, loginCalls := 1 }
      else
        match resp.jsonBody with
        | .error msg => { outcome := .error msg, cache := st, loginCalls := 1 }
        | .ok .null =>
          { outcome := .error "TypeError: Cannot read properties of null (reading token)",
            cache := st, loginCalls := 1 }
        | .ok data =>
          let token := jsOr (getField data "token") (getField data "access_token")
          if truthyOpt token then
            { outcome := .ok (token.getD .null),
              cache := { cachedToken := token, tokenExpiry := some (now + MS55) },
              loginCalls := 1 }
          else
            { outcome := .error "Resposta de autenticação não contém token JWT.",
              cache := st, loginCalls := 1 }

/-- An incoming event: the HTTP method, the outcome of `JSON.parse` on the
request body (`error` = the body was absent or not valid JSON, carrying the
parse failure message), and `event.headers.host`. -/
structure Event where
  httpMethod : String
  body : Except String Json
  host : String

/-- The world an invocation runs in: the clock and the two fetch oracles. -/
structure World where
  now : Int
  loginFetch : Except String HttpResp
  depositFetch : Except String HttpResp

/-- A response body: a `JSON.stringify`d value, or a plain string. -/
inductive Body where
  | json : Json → Body
  | raw : String → Body
deriving Repr

/-- An HTTP response produced by the handler.  `headers = none` when the
returned object has no `headers` field at all. -/
structure Response where
  statusCode : Nat
  headers : Option (List (String × String))
  body : Body
deriving Repr

/-- The fixed CORS header set built on the POST path. -/
def corsHeaders : List (String × String) :=
  [("Content-Type", "application/json"),
   ("Access-Control-Allow-Origin", "*"),
   ("Access-Control-Allow-Methods", "POST, OPTIONS"),
   ("Access-Control-Allow-Headers", "Content-Type")]

/-- Side effects accumulated inside the `try` block: the cache afterwards,
the number of `authenticate` invocations, outgoing login requests, outgoing
deposit requests, and the deposit request body when one was sent. -/
structure TryState where
  cache : AuthCache
  authCalls : Nat
  loginCalls : Nat
  depositCalls : Nat
  depositRequest : Option Json

/-- The provider-error message chain
`depositData.error || depositData.message || "Erro desconhecido..."`. -/
def depositErrorMessage (d : Json) : Json :=
  (jsOr (getField d "error")
    (jsOr (getField d "message")
      (some (.str "Erro desconhecido ao criar depósito na Instapay.")))).getD .null

/-- The `try` block of the handler (entered only on the POST path):
returns the accumulated side effects and either a returned response or a
thrown error message (to be caught by the top-level `catch`). -/
def handlerTry (env : Env) (st : AuthCache) (ev : Event) (w : World) :
    TryState × Except String Response :=
  let st0 : TryState :=
    { cache := st, authCalls := 0, loginCalls := 0, depositCalls := 0,
      depositRequest := none }
  match ev.body with
  | .error msg => (st0, .error msg)
  | .ok .null =>
    (st0, .error "TypeError: Cannot destructure property amount of JSON.parse as it is null.")
  | .ok parsed =>
    let amount := getField parsed "amount"
    let external_id := getField parsed "external_id"
    let payer := getField parsed "payer"
    if !truthyOpt amount || !truthyOpt external_id || !truthyOpt payer then
      (st0, .ok
        { statusCode := 400, headers := some corsHeaders,
          body := .json (.obj [("error", .str "Dados incompletos. Requer: amount, external_id e payer.")]) })
    else
      let ar := authenticate env st w.now w.loginFetch
      let st1 : TryState :=
        { st0 with cache := ar.cache, authCalls := 1, loginCalls := ar.loginCalls }
      match ar.outcome with
      | .error msg => (st1, .error msg)
      | .ok _token =>
        let reqBody : Json := .obj
          [("amount", amount.getD .null),
           ("external_id", external_id.getD .null),
           ("clientCallbackUrl", .str ("https://" ++ ev.host ++ "/.netlify/functions/pix-webhook")),
           ("payer", payer.getD .null)]
        let st2 : TryState :=
          { st1 with depositCalls := 1, depositRequest := some reqBody }
        match w.depositFetch with
        | .error msg => (st2, .error msg)
        | .ok dep =>
          match dep.jsonBody with
          | .error _ =>
            (st2, .error ("Resposta da API de Depósito não é JSON. Status: " ++ toString dep.status ++ ". Resposta: " ++ dep.rawText))
          | .ok depositData =>
            if !statusOk dep.status then
              match depositData with
              | .null =>
                (st2, .error "TypeError: Cannot read properties of null (reading error)")
              | _ =>
                (st2, .ok
                  { statusCode := dep.status, headers := some corsHeaders,
                    body := .json (.obj
                      [("error", depositErrorMessage depositData),
                       ("details", depositData)]) })
            else
              match depositData with
              | .null =>
                (st2, .error "TypeError: Cannot read properties of null (reading transaction_id)")
              | _ =>
                (st2, .ok
                  { statusCode := 200, headers := some corsHeaders,
                    body := .json (.obj
                      (optField "transaction_id" (getField depositData "transaction_id") ++
                       optField "qr_code_image" (getField depositData "qr_code_image") ++
                       optField "pix_code" (getField depositData "pix_code") ++
                       optField "status" (getField depositData "status"))) })

/-- Full result of one handler invocation. -/
structure HandlerResult where
  response : Response
  cache : AuthCache
  authCalls : Nat
  loginCalls : Nat
  depositCalls : Nat
  depositRequest : Option Json

/-- The exported handler.  The non-POST check (which also swallows OPTIONS)
comes first and returns a headerless 405; the OPTIONS branch below it is
kept exactly as in the source although it is unreachable; the `try` block is
wrapped by the catch-all that emits 500. -/
def handler (env : Env) (st : AuthCache) (ev : Event) (w : World) : HandlerResult :=
  if ev.httpMethod ≠ "POST" then
    { response :=
        { statusCode := 405, headers := none,
          body := .json (.obj [("error", .str "Método não permitido. Use POST.")]) },
      cache := st, authCalls := 0, loginCalls := 0, depositCalls := 0,
      depositRequest := none }
  else if ev.httpMethod = "OPTIONS" then
    { response := { statusCode := 200, headers := some corsHeaders, body := .raw "" },
      cache := st, authCalls := 0, loginCalls := 0, depositCalls := 0,
      depositRequest := none }
  else
    match handlerTry env st ev w with
    | (ts, .ok resp) =>
      { response := resp, cache := ts.cache, authCalls := ts.authCalls,
        loginCalls := ts.loginCalls, depositCalls := ts.depositCalls,
        depositRequest := ts.depositRequest }
    | (ts, .error msg) =>
      { response :=
          { statusCode := 500, headers := some corsHeaders,
            body := .json (.obj
              [("error", .str "Erro interno do servidor ao processar PIX."),
               ("details", .str msg)]) },
        cache := ts.cache, authCalls := ts.authCalls,
        loginCalls := ts.loginCalls, depositCalls := ts.depositCalls,
        depositRequest := ts.depositRequest }

/-- Whether a response body is a JSON object carrying an `error` field. -/
def bodyHasErrorField : Body → Bool
  | .json j => (getField j "error").isSome
  | .raw _ => false

/-! Concrete fixtures used by witnesses and counterexamples. -/

/-- A configured environment with both credentials present. -/
def env0 : Env := { clientId := some "id", clientSecret := some "sec" }

/-- The cold-start cache: both module variables `null`. -/
def cache0 : AuthCache := { cachedToken := none, tokenExpiry := none }

/-- A world where both fetches would fail with a network error. -/
def world0 : World := { now := 0, loginFetch := .error "request to instapay failed", depositFetch := .error "request to instapay failed" }

/-- A successful login response carrying a `token` field. -/
def loginOkResp : HttpResp :=
  { status := 200, jsonBody := .ok (.obj [("token", .str "tok123")]), rawText := "ok" }

/-- A request body with all three required fields present and truthy. -/
def goodBody : Json :=
  .obj [("amount", .num 100), ("external_id", .str "x1"),
        ("payer", .obj [("name", .str "Ana")])]

/-- An OPTIONS pre-flight event. -/
def optionsEvent : Event :=
  { httpMethod := "OPTIONS", body := .error "Unexpected end of JSON input",
    host := "example.com" }

/-- A GET event. -/
def getEvent : Event :=
  { httpMethod := "GET", body := .error "Unexpected end of JSON input",
    host := "example.com" }

/-- A POST event whose JSON body lacks `external_id` and `payer`. -/
def postMissingEvent : Event :=
  { httpMethod := "POST", body := .ok (.obj [("amount", .num 100)]),
    host := "example.com" }

/-- A POST event with a complete body. -/
def postGoodEvent : Event :=
  { httpMethod := "POST", body := .ok goodBody, host := "example.com" }

/-! Helper lemmas. -/

/-- Every response returned (not thrown) by the `try` block carries the
fixed CORS header set. -/
theorem handlerTry_ok_headers (env : Env) (st : AuthCache) (ev : Event)
    (w : World) (resp : Response)
    (h : (handlerTry env st ev w).2 = Except.ok resp) :
    resp.headers = some corsHeaders := by
  unfold handlerTry at h
  dsimp only at h
  repeat' split at h
  all_goals try (replace h := Except.ok.inj h; subst h; rfl)
  all_goals simp_all

/-- C1: the spec claims every OPTIONS request is answered with 200, an empty
body and the fixed CORS headers, with no authenticator or provider call.
The source checks `httpMethod !== POST` first and returns the headerless
405 error there, so the dedicated OPTIONS branch is unreachable: an OPTIONS
request actually gets status 405, no headers, a non-empty JSON error body —
though indeed no authenticator or provider call. -/
theorem C1_options_actually_405 (env : Env) (st : AuthCache) (ev : Event)
    (w : World) (h : ev.httpMethod = "OPTIONS") :
    (handler env st ev w).response.statusCode = 405 ∧
    (handler env st ev w).response.headers = none ∧
    (handler env st ev w).response.body ≠ .raw "" ∧
    (handler env st ev w).authCalls = 0 ∧
    (handler env st ev w).depositCalls = 0 := by
  rw [handler, if_pos (by simp [h])]
  simp

/-- C1 witness: the theorem instantiated at a concrete OPTIONS request. -/
theorem C1_options_actually_405_witness :
    (handler env0 cache0 optionsEvent world0).response.statusCode = 405 ∧
    (handler env0 cache0 optionsEvent world0).response.headers = none ∧
    (handler env0 cache0 optionsEvent world0).response.body ≠ .raw "" ∧
    (handler env0 cache0 optionsEvent world0).authCalls = 0 ∧
    (handler env0 cache0 optionsEvent world0).depositCalls = 0 :=
  C1_options_actually_405 env0 cache0 optionsEvent world0 rfl

/-- C2 counterexample: a GET request is answered by the 405 branch, whose
returned object has no `headers` field at all, so not every response carries
the fixed CORS header set. -/
theorem C2_counterexample_get_no_headers :
    (handler env0 cache0 getEvent world0).response.headers = none ∧
    (handler env0 cache0 getEvent world0).response.headers ≠ some corsHeaders := by
  constructor
  · rfl
  · intro hc
    simp [handler, getEvent] at hc

/-- C2 (amended): every response produced on the POST processing path — the
validation 400, the provider-error passthrough, the success 200 and the
catch-all 500 — carries the fixed CORS header set; the 405 reply sent for
any other method (OPTIONS included) has no headers at all. -/
theorem C2_post_responses_have_cors (env : Env) (st : AuthCache) (ev : Event)
    (w : World) (h : ev.httpMethod = "POST") :
    (handler env st ev w).response.headers = some corsHeaders := by
  rw [handler, if_neg (by simp [h]), if_neg (by simp [h])]
  rcases h2 : handlerTry env st ev w with ⟨ts, r⟩
  cases r with
  | ok resp =>
    have hh := handlerTry_ok_headers env st ev w resp (by rw [h2])
    simp [hh]
  | error msg => simp

/-- C2 witness: a concrete POST request whose response carries the headers. -/
theorem C2_post_responses_have_cors_witness :
    (handler env0 cache0 postMissingEvent world0).response.headers = some corsHeaders :=
  C2_post_responses_have_cors env0 cache0 postMissingEvent world0 rfl

/-- C3: any request whose method is neither POST nor OPTIONS is answered
with status 405 and a JSON body carrying an `error` field, and neither the
authenticator nor the provider is called. -/
theorem C3_other_methods_405 (env : Env) (st : AuthCache) (ev : Event)
    (w : World) (h1 : ev.httpMethod ≠ "POST") (_h2 : ev.httpMethod ≠ "OPTIONS") :
    (handler env st ev w).response.statusCode = 405 ∧
    bodyHasErrorField (handler env st ev w).response.body = true ∧
    (handler env st ev w).authCalls = 0 ∧
    (handler env st ev w).depositCalls = 0 := by
  rw [handler, if_pos h1]
  simp [bodyHasErrorField, getField, lookupField]

/-- A POST event whose body is the valid JSON text `null`. -/
def nullBodyEvent : Event :=
  { httpMethod := "POST", body := .ok .null, host := "example.com" }

/-- On the POST path, a parsed non-`null` body with a falsy required field
makes the `try` block return the 400 validation response at once. -/
theorem handlerTry_missing_field (env : Env) (st : AuthCache) (ev : Event)
    (w : World) (parsed : Json) (hb : ev.body = Except.ok parsed)
    (hn : parsed ≠ Json.null)
    (hmiss : (!truthyOpt (getField parsed "amount") ||
              !truthyOpt (getField parsed "external_id") ||
              !truthyOpt (getField parsed "payer")) = true) :
    handlerTry env st ev w =
      ({ cache := st, authCalls := 0, loginCalls := 0, depositCalls := 0,
         depositRequest := none },
       Except.ok
         { statusCode := 400, headers := some corsHeaders,
           body := .json (.obj [("error", .str "Dados incompletos. Requer: amount, external_id e payer.")]) }) := by
  unfold handlerTry
  rw [hb]
  cases parsed <;> simp_all

/-- C4 counterexample: the spec claims any POST whose parsed JSON body is
missing the required fields gets a 400; but for the valid JSON body `null`
(all three fields missing) the destructuring throws, so the handler answers
500, not 400. -/
theorem C4_counterexample_null_body :
    (handler env0 cache0 nullBodyEvent world0).response.statusCode = 500 ∧
    (handler env0 cache0 nullBodyEvent world0).response.statusCode ≠ 400 := by
  constructor
  · rfl
  · intro hc
    rw [show (handler env0 cache0 nullBodyEvent world0).response.statusCode = 500 from rfl] at hc
    simp at hc

/-- C4 (amended): for every POST request whose parsed JSON body is a value
other than `null` (a `null` body instead makes the destructuring throw,
yielding 500) and is missing any of `amount`, `external_id` or `payer`, the
handler returns 400 with a JSON error body, and neither the authenticator
nor the provider is called. -/
theorem C4_missing_field_400 (env : Env) (st : AuthCache) (ev : Event)
    (w : World) (parsed : Json) (hm : ev.httpMethod = "POST")
    (hb : ev.body = Except.ok parsed) (hn : parsed ≠ Json.null)
    (hmiss : getField parsed "amount" = none ∨
             getField parsed "external_id" = none ∨
             getField parsed "payer" = none) :
    (handler env st ev w).response.statusCode = 400 ∧
    bodyHasErrorField (handler env st ev w).response.body = true ∧
    (handler env st ev w).authCalls = 0 ∧
    (handler env st ev w).depositCalls = 0 := by
  have hm3 : (!truthyOpt (getField parsed "amount") ||
              !truthyOpt (getField parsed "external_id") ||
              !truthyOpt (getField parsed "payer")) = true := by
    rcases hmiss with h | h | h <;> simp [h, truthyOpt]
  rw [handler, if_neg (by simp [hm]), if_neg (by simp [hm]),
    handlerTry_missing_field env st ev w parsed hb hn hm3]
  simp [bodyHasErrorField, getField, lookupField]

/-- C4 witness: the amended theorem at a POST whose body lacks two fields. -/
theorem C4_missing_field_400_witness :
    (handler env0 cache0 postMissingEvent world0).response.statusCode = 400 ∧
    bodyHasErrorField (handler env0 cache0 postMissingEvent world0).response.body = true ∧
    (handler env0 cache0 postMissingEvent world0).authCalls = 0 ∧
    (handler env0 cache0 postMissingEvent world0).depositCalls = 0 :=
  C4_missing_field_400 env0 cache0 postMissingEvent world0
    (.obj [("amount", .num 100)]) rfl rfl
    (fun hx => Json.noConfusion hx) (Or.inr (Or.inl rfl))

/-- A truthy possibly-`undefined` value is a `some` of its default read. -/
theorem truthyOpt_eq_some (o : Option Json) (h : truthyOpt o = true) :
    o = some (o.getD Json.null) := by
  cases o with
  | none => simp [truthyOpt] at h
  | some j => rfl

/-- The cache-validity test, unfolded: a stored truthy token together with a
stored expiry strictly after the current time. -/
theorem cacheHit_iff (st : AuthCache) (now : Int) :
    cacheHit st now = true ↔
      (∃ t, st.cachedToken = some t ∧ truthy t = true) ∧
      (∃ e, st.tokenExpiry = some e ∧ now < e) := by
  rcases st with ⟨ct, te⟩
  cases ct <;> cases te <;> simp [cacheHit, truthyOpt]

/-- On a cache hit, `authenticate` returns the stored token immediately. -/
theorem authenticate_hit (env : Env) (st : AuthCache) (now : Int)
    (lf : Except String HttpResp) (h : cacheHit st now = true) :
    authenticate env st now lf =
      { outcome := .ok (st.cachedToken.getD .null), cache := st, loginCalls := 0 } := by
  unfold authenticate
  rw [if_pos h]

/-- On a cache miss, `authenticate` can only return a token after one login
request, and then stores that token with expiry 55 minutes from now. -/
theorem authenticate_miss_token (env : Env) (st : AuthCache) (now : Int)
    (lf : Except String HttpResp) (t : Json) (h : cacheHit st now = false)
    (hok : (authenticate env st now lf).outcome = Except.ok t) :
    (authenticate env st now lf).loginCalls = 1 ∧
    (authenticate env st now lf).cache =
      { cachedToken := some t, tokenExpiry := some (now + MS55) } := by
  unfold authenticate at hok ⊢
  rw [if_neg (by simp [h])] at hok ⊢
  dsimp only at hok ⊢
  repeat' split at hok
  all_goals simp_all
  all_goals (rename_i htok; rw [truthyOpt_eq_some _ htok, hok])

/-- A cache holding a truthy token that expires at time 100. -/
def cacheTok : AuthCache := { cachedToken := some (.str "tok"), tokenExpiry := some 100 }

/-- A truthy possibly-`undefined` value is either absent or a truthy
value — the shape of a well-formed stored token. -/
theorem truthyOpt_wf (o : Option Json) (h : truthyOpt o = true) :
    o = none ∨ ∃ t, o = some t ∧ truthy t = true := by
  cases o with
  | none => exact Or.inl rfl
  | some j => exact Or.inr ⟨j, rfl, h⟩

/-- `authenticate` preserves cache well-formedness: starting from a cache
whose stored token (if any) is truthy, the resulting cache again stores
only a truthy token (only truthy tokens are ever written).  Together with
the `null` cold-start cache this justifies the well-formedness hypothesis
used for the cache-reuse characterisation. -/
theorem authenticate_preserves_wf (env : Env) (st : AuthCache) (now : Int)
    (lf : Except String HttpResp)
    (hwf : st.cachedToken = none ∨ ∃ t, st.cachedToken = some t ∧ truthy t = true) :
    (authenticate env st now lf).cache.cachedToken = none ∨
    ∃ t, (authenticate env st now lf).cache.cachedToken = some t ∧ truthy t = true := by
  unfold authenticate
  dsimp only
  repeat' split
  all_goals try exact hwf
  rename_i htok
  exact truthyOpt_wf _ htok

/-- C5: the authenticator reuses the cached token — returning it with zero
login requests and an untouched cache — exactly when a cached token is
present and the current time is strictly before the recorded expiry; and
whenever a performed login succeeds, the returned token is stored with
expiry set to the current time plus 55 minutes.  (`hwf` says any stored
token is truthy, which holds for every reachable cache since only truthy
tokens are ever stored.) -/
theorem C5_token_cache (env : Env) (st : AuthCache) (now : Int)
    (lf : Except String HttpResp)
    (hwf : st.cachedToken = none ∨ ∃ t, st.cachedToken = some t ∧ truthy t = true) :
    (((authenticate env st now lf).loginCalls = 0 ∧
      (authenticate env st now lf).cache = st ∧
      ∃ t, st.cachedToken = some t ∧ (authenticate env st now lf).outcome = Except.ok t)
      ↔ st.cachedToken ≠ none ∧ ∃ e, st.tokenExpiry = some e ∧ now < e) ∧
    (∀ t, (authenticate env st now lf).loginCalls = 1 →
       (authenticate env st now lf).outcome = Except.ok t →
       (authenticate env st now lf).cache =
         { cachedToken := some t, tokenExpiry := some (now + MS55) }) := by
  cases hhit : cacheHit st now with
  | true =>
    rw [authenticate_hit env st now lf hhit]
    obtain ⟨⟨t, hct, htr⟩, e, hte, hlt⟩ := (cacheHit_iff st now).mp hhit
    refine ⟨⟨fun _ => ⟨by simp [hct], e, hte, hlt⟩,
      fun _ => ⟨rfl, rfl, t, hct, by simp [hct]⟩⟩, ?_⟩
    intro t2 h1 _
    simp at h1
  | false =>
    constructor
    · constructor
      · rintro ⟨h0, _, t, _, hok⟩
        have hm := (authenticate_miss_token env st now lf t hhit hok).1
        rw [h0] at hm
        exact absurd hm (by decide)
      · rintro ⟨hne, e, hte, hlt⟩
        rcases hwf with hwf | ⟨t, hct, htr⟩
        · exact absurd hwf hne
        · have hh : cacheHit st now = true :=
            (cacheHit_iff st now).mpr ⟨⟨t, hct, htr⟩, e, hte, hlt⟩
          rw [hhit] at hh
          exact absurd hh (by decide)
    · intro t _ hok
      exact (authenticate_miss_token env st now lf t hhit hok).2

/-- C5 witness: the theorem at a cache holding a live token at time 50 with
expiry 100, in a world where any login attempt would fail — the cached
token is still returned with zero login calls. -/
theorem C5_token_cache_witness :
    (((authenticate env0 cacheTok 50 (.error "net")).loginCalls = 0 ∧
      (authenticate env0 cacheTok 50 (.error "net")).cache = cacheTok ∧
      ∃ t, cacheTok.cachedToken = some t ∧
        (authenticate env0 cacheTok 50 (.error "net")).outcome = Except.ok t)
      ↔ cacheTok.cachedToken ≠ none ∧ ∃ e, cacheTok.tokenExpiry = some e ∧ (50 : Int) < e) ∧
    (∀ t, (authenticate env0 cacheTok 50 (.error "net")).loginCalls = 1 →
       (authenticate env0 cacheTok 50 (.error "net")).outcome = Except.ok t →
       (authenticate env0 cacheTok 50 (.error "net")).cache =
         { cachedToken := some t, tokenExpiry := some (50 + MS55) }) :=
  C5_token_cache env0 cacheTok 50 (.error "net") (Or.inr ⟨.str "tok", rfl, rfl⟩)

/-- C6: when the provider's login response is successful JSON, the token is
taken from the `token` field or, failing that, from `access_token`, and the
call raises an error exactly when neither field yields a (truthy) token. -/
theorem C6_login_token_fields (env : Env) (st : AuthCache) (now : Int)
    (resp : HttpResp) (data : Json) (hmiss : cacheHit st now = false)
    (hc1 : truthyStr env.clientId = true) (hc2 : truthyStr env.clientSecret = true)
    (hok : statusOk resp.status = true) (hjson : resp.jsonBody = Except.ok data) :
    (∀ t0, getField data "token" = some t0 → truthy t0 = true →
       (authenticate env st now (.ok resp)).outcome = Except.ok t0) ∧
    (truthyOpt (getField data "token") = false →
       ∀ t1, getField data "access_token" = some t1 → truthy t1 = true →
         (authenticate env st now (.ok resp)).outcome = Except.ok t1) ∧
    ((∃ msg, (authenticate env st now (.ok resp)).outcome = Except.error msg) ↔
       truthyOpt (getField data "token") = false ∧
       truthyOpt (getField data "access_token") = false) := by
  unfold authenticate
  rw [if_neg (by simp [hmiss]), if_neg (by simp [hc1, hc2])]
  dsimp only
  rw [if_neg (by simp [hok]), hjson]
  cases data with
  | null => simp [getField, truthyOpt]
  | _ =>
    dsimp only
    rename_i x
    cases ht1 : truthyOpt (getField _ "token") <;>
      cases ht2 : truthyOpt (getField _ "access_token") <;>
        simp_all [jsOr, truthyOpt]

/-- C6 witness: the theorem at a login response whose JSON carries a truthy
`token` field. -/
theorem C6_login_token_fields_witness :
    (∀ t0, getField (.obj [("token", .str "tok123")]) "token" = some t0 → truthy t0 = true →
       (authenticate env0 cache0 0 (.ok loginOkResp)).outcome = Except.ok t0) ∧
    (truthyOpt (getField (.obj [("token", .str "tok123")]) "token") = false →
       ∀ t1, getField (.obj [("token", .str "tok123")]) "access_token" = some t1 → truthy t1 = true →
         (authenticate env0 cache0 0 (.ok loginOkResp)).outcome = Except.ok t1) ∧
    ((∃ msg, (authenticate env0 cache0 0 (.ok loginOkResp)).outcome = Except.error msg) ↔
       truthyOpt (getField (.obj [("token", .str "tok123")]) "token") = false ∧
       truthyOpt (getField (.obj [("token", .str "tok123")]) "access_token") = false) :=
  C6_login_token_fields env0 cache0 0 loginOkResp (.obj [("token", .str "tok123")])
    rfl rfl rfl rfl rfl

/-- A deposit response with a non-success status whose JSON body is `null`. -/
def depNull402 : HttpResp := { status := 402, jsonBody := .ok .null, rawText := "null" }

/-- A provider-error deposit response carrying an `error` field. -/
def dep402 : HttpResp :=
  { status := 402, jsonBody := .ok (.obj [("error", .str "insufficient_funds")]),
    rawText := "err" }

/-- A successful deposit response with the four pass-through fields and one
extra field. -/
def depOk : HttpResp :=
  { status := 200,
    jsonBody := .ok (.obj
      [("transaction_id", .str "t1"), ("qr_code_image", .str "qr"),
       ("pix_code", .str "pix"), ("status", .str "pending"),
       ("extra", .num 9)]),
    rawText := "ok" }

/-- On the POST path with a complete body, a successful authentication and a
non-success deposit status over a non-`null` JSON body, the `try` block
returns the provider's status with the error/message chain and the full
body under `details`, after exactly one deposit request. -/
theorem handlerTry_deposit_error (env : Env) (st : AuthCache) (ev : Event)
    (w : World) (parsed : Json) (dep : HttpResp) (d : Json) (t : Json)
    (hb : ev.body = Except.ok parsed)
    (ha : truthyOpt (getField parsed "amount") = true)
    (he : truthyOpt (getField parsed "external_id") = true)
    (hp : truthyOpt (getField parsed "payer") = true)
    (hauth : (authenticate env st w.now w.loginFetch).outcome = Except.ok t)
    (hd : w.depositFetch = Except.ok dep) (hj : dep.jsonBody = Except.ok d)
    (hnn : d ≠ Json.null) (hstatus : statusOk dep.status = false) :
    (handlerTry env st ev w).2 = Except.ok
      { statusCode := dep.status, headers := some corsHeaders,
        body := .json (.obj [("error", depositErrorMessage d), ("details", d)]) } ∧
    (handlerTry env st ev w).1.depositCalls = 1 := by
  unfold handlerTry
  rw [hb]
  cases parsed with
  | obj fields =>
    dsimp only
    rw [if_neg (by simp [ha, he, hp]), hauth]
    dsimp only
    rw [hd]
    dsimp only
    rw [hj]
    dsimp only
    rw [if_pos (by simp [hstatus])]
    cases d <;> simp_all
  | _ => exact absurd ha (by simp [getField, truthyOpt])

/-- C7 counterexample: the spec claims any non-success deposit response with
a JSON body is forwarded with its own status; but when that JSON body is
`null`, reading `.error` on it throws, so a 402 provider error with body
`null` is answered with 500, not 402. -/
theorem C7_counterexample_null_error_body :
    (handler env0 cache0 postGoodEvent
      { now := 0, loginFetch := .ok loginOkResp, depositFetch := .ok depNull402 }).response.statusCode = 500 ∧
    (handler env0 cache0 postGoodEvent
      { now := 0, loginFetch := .ok loginOkResp, depositFetch := .ok depNull402 }).response.statusCode ≠ 402 := by
  constructor
  · rfl
  · intro hc
    rw [show (handler env0 cache0 postGoodEvent
      { now := 0, loginFetch := .ok loginOkResp, depositFetch := .ok depNull402 }).response.statusCode = 500 from rfl] at hc
    simp at hc

/-- C7 (amended): for every POST request where the provider's deposit call
returns a non-`null` JSON body with a non-success HTTP status (a `null`
body instead makes the error handling itself throw, yielding 500), the
handler forwards that same status with a body whose `error` field is the
provider's `error` field, else its `message` field, else the default
message, and whose `details` field is the full parsed provider response. -/
theorem C7_provider_error_passthrough (env : Env) (st : AuthCache) (ev : Event)
    (w : World) (parsed : Json) (dep : HttpResp) (d : Json)
    (hm : ev.httpMethod = "POST") (hb : ev.body = Except.ok parsed)
    (ha : truthyOpt (getField parsed "amount") = true)
    (he : truthyOpt (getField parsed "external_id") = true)
    (hp : truthyOpt (getField parsed "payer") = true)
    (hauth : ∃ t, (authenticate env st w.now w.loginFetch).outcome = Except.ok t)
    (hd : w.depositFetch = Except.ok dep) (hj : dep.jsonBody = Except.ok d)
    (hnn : d ≠ Json.null) (hstatus : statusOk dep.status = false) :
    (handler env st ev w).response.statusCode = dep.status ∧
    (handler env st ev w).response.body =
      .json (.obj [("error", depositErrorMessage d), ("details", d)]) ∧
    (handler env st ev w).depositCalls = 1 := by
  obtain ⟨t, ht⟩ := hauth
  have hh := handlerTry_deposit_error env st ev w parsed dep d t hb ha he hp ht hd hj hnn hstatus
  rw [handler, if_neg (by simp [hm]), if_neg (by simp [hm])]
  rcases h2 : handlerTry env st ev w with ⟨ts, r⟩
  rw [h2] at hh
  obtain ⟨hr, hcalls⟩ := hh
  dsimp only at hr hcalls
  subst hr
  dsimp only
  exact ⟨rfl, rfl, hcalls⟩

/-- C7 witness: a 402 provider error with body carrying `error` is forwarded
as 402 with that error and the full body under `details`. -/
theorem C7_provider_error_passthrough_witness :
    (handler env0 cache0 postGoodEvent
      { now := 0, loginFetch := .ok loginOkResp, depositFetch := .ok dep402 }).response.statusCode = dep402.status ∧
    (handler env0 cache0 postGoodEvent
      { now := 0, loginFetch := .ok loginOkResp, depositFetch := .ok dep402 }).response.body =
      .json (.obj [("error", depositErrorMessage (.obj [("error", .str "insufficient_funds")])),
                   ("details", .obj [("error", .str "insufficient_funds")])]) ∧
    (handler env0 cache0 postGoodEvent
      { now := 0, loginFetch := .ok loginOkResp, depositFetch := .ok dep402 }).depositCalls = 1 :=
  C7_provider_error_passthrough env0 cache0 postGoodEvent
    { now := 0, loginFetch := .ok loginOkResp, depositFetch := .ok dep402 }
    goodBody dep402 (.obj [("error", .str "insufficient_funds")])
    rfl rfl rfl rfl rfl ⟨.str "tok123", rfl⟩ rfl rfl
    (fun hx => Json.noConfusion hx) rfl

/-- On the POST path with a complete body, a successful authentication and a
successful deposit status whose JSON body carries the four pass-through
fields, the `try` block returns 200 with exactly those four fields. -/
theorem handlerTry_deposit_success (env : Env) (st : AuthCache) (ev : Event)
    (w : World) (parsed : Json) (dep : HttpResp) (d : Json) (t : Json)
    (tv qv pv sv : Json)
    (hb : ev.body = Except.ok parsed)
    (ha : truthyOpt (getField parsed "amount") = true)
    (he : truthyOpt (getField parsed "external_id") = true)
    (hp : truthyOpt (getField parsed "payer") = true)
    (hauth : (authenticate env st w.now w.loginFetch).outcome = Except.ok t)
    (hd : w.depositFetch = Except.ok dep) (hj : dep.jsonBody = Except.ok d)
    (hstatus : statusOk dep.status = true)
    (h1 : getField d "transaction_id" = some tv)
    (h2 : getField d "qr_code_image" = some qv)
    (h3 : getField d "pix_code" = some pv)
    (h4 : getField d "status" = some sv) :
    (handlerTry env st ev w).2 = Except.ok
      { statusCode := 200, headers := some corsHeaders,
        body := .json (.obj
          [("transaction_id", tv), ("qr_code_image", qv),
           ("pix_code", pv), ("status", sv)]) } ∧
    (handlerTry env st ev w).1.depositCalls = 1 := by
  unfold handlerTry
  rw [hb]
  cases parsed with
  | obj fields =>
    dsimp only
    rw [if_neg (by simp [ha, he, hp]), hauth]
    dsimp only
    rw [hd]
    dsimp only
    rw [hj]
    dsimp only
    rw [if_neg (by simp [hstatus])]
    cases d <;> simp_all [optField, getField]
  | _ => exact absurd ha (by simp [getField, truthyOpt])

/-- C8: for every POST request where the deposit call succeeds with a JSON
body containing `transaction_id`, `qr_code_image`, `pix_code` and `status`,
the handler returns 200 with a body made of exactly those four fields, any
other provider field discarded. -/
theorem C8_success_exact_fields (env : Env) (st : AuthCache) (ev : Event)
    (w : World) (parsed : Json) (dep : HttpResp) (d : Json)
    (tv qv pv sv : Json)
    (hm : ev.httpMethod = "POST") (hb : ev.body = Except.ok parsed)
    (ha : truthyOpt (getField parsed "amount") = true)
    (he : truthyOpt (getField parsed "external_id") = true)
    (hp : truthyOpt (getField parsed "payer") = true)
    (hauth : ∃ t, (authenticate env st w.now w.loginFetch).outcome = Except.ok t)
    (hd : w.depositFetch = Except.ok dep) (hj : dep.jsonBody = Except.ok d)
    (hstatus : statusOk dep.status = true)
    (h1 : getField d "transaction_id" = some tv)
    (h2 : getField d "qr_code_image" = some qv)
    (h3 : getField d "pix_code" = some pv)
    (h4 : getField d "status" = some sv) :
    (handler env st ev w).response.statusCode = 200 ∧
    (handler env st ev w).response.body =
      .json (.obj
        [("transaction_id", tv), ("qr_code_image", qv),
         ("pix_code", pv), ("status", sv)]) ∧
    (handler env st ev w).depositCalls = 1 := by
  obtain ⟨t, ht⟩ := hauth
  have hh := handlerTry_deposit_success env st ev w parsed dep d t tv qv pv sv
    hb ha he hp ht hd hj hstatus h1 h2 h3 h4
  rw [handler, if_neg (by simp [hm]), if_neg (by simp [hm])]
  rcases h5 : handlerTry env st ev w with ⟨ts, r⟩
  rw [h5] at hh
  obtain ⟨hr, hcalls⟩ := hh
  dsimp only at hr hcalls
  subst hr
  dsimp only
  exact ⟨rfl, rfl, hcalls⟩

/-- C8 witness: a successful deposit response with an extra field is mapped
to 200 with exactly the four pass-through fields. -/
theorem C8_success_exact_fields_witness :
    (handler env0 cache0 postGoodEvent
      { now := 0, loginFetch := .ok loginOkResp, depositFetch := .ok depOk }).response.statusCode = 200 ∧
    (handler env0 cache0 postGoodEvent
      { now := 0, loginFetch := .ok loginOkResp, depositFetch := .ok depOk }).response.body =
      .json (.obj
        [("transaction_id", .str "t1"), ("qr_code_image", .str "qr"),
         ("pix_code", .str "pix"), ("status", .str "pending")]) ∧
    (handler env0 cache0 postGoodEvent
      { now := 0, loginFetch := .ok loginOkResp, depositFetch := .ok depOk }).depositCalls = 1 :=
  C8_success_exact_fields env0 cache0 postGoodEvent
    { now := 0, loginFetch := .ok loginOkResp, depositFetch := .ok depOk }
    goodBody depOk
    (.obj [("transaction_id", .str "t1"), ("qr_code_image", .str "qr"),
           ("pix_code", .str "pix"), ("status", .str "pending"), ("extra", .num 9)])
    (.str "t1") (.str "qr") (.str "pix") (.str "pending")
    rfl rfl rfl rfl rfl ⟨.str "tok123", rfl⟩ rfl rfl rfl rfl rfl rfl rfl

/-- Every response returned (not thrown) by the `try` block has a JSON
object body. -/
theorem handlerTry_ok_body_obj (env : Env) (st : AuthCache) (ev : Event)
    (w : World) (resp : Response)
    (h : (handlerTry env st ev w).2 = Except.ok resp) :
    ∃ fields, resp.body = Body.json (Json.obj fields) := by
  unfold handlerTry at h
  dsimp only at h
  repeat' split at h
  all_goals try (replace h := Except.ok.inj h; subst h; exact ⟨_, rfl⟩)
  all_goals simp_all

/-- C9: on the POST path, any error thrown during processing — body-parse
failure, missing credentials, authentication failure, network failure,
deposit-response parse failure — is caught by the single top-level handler,
which answers 500 with the generic `error` message and the underlying error
text under `details`; and every POST response body is a complete JSON
object. -/
theorem C9_catch_all_500 (env : Env) (st : AuthCache) (ev : Event)
    (w : World) (hm : ev.httpMethod = "POST") :
    (∀ msg, (handlerTry env st ev w).2 = Except.error msg →
       (handler env st ev w).response =
         { statusCode := 500, headers := some corsHeaders,
           body := .json (.obj
             [("error", .str "Erro interno do servidor ao processar PIX."),
              ("details", .str msg)]) }) ∧
    (∃ fields, (handler env st ev w).response.body = .json (.obj fields)) := by
  rw [handler, if_neg (by simp [hm]), if_neg (by simp [hm])]
  rcases h2 : handlerTry env st ev w with ⟨ts, r⟩
  constructor
  · intro msg hmsg
    have hr : r = Except.error msg := hmsg
    subst hr
    rfl
  · cases r with
    | error msg => exact ⟨_, rfl⟩
    | ok resp =>
      obtain ⟨fields, hf⟩ := handlerTry_ok_body_obj env st ev w resp (by rw [h2])
      exact ⟨fields, hf⟩

/-- C9 witness: the theorem at a complete POST request in a world where the
login fetch fails with a network error. -/
theorem C9_catch_all_500_witness :
    (∀ msg, (handlerTry env0 cache0 postGoodEvent world0).2 = Except.error msg →
       (handler env0 cache0 postGoodEvent world0).response =
         { statusCode := 500, headers := some corsHeaders,
           body := .json (.obj
             [("error", .str "Erro interno do servidor ao processar PIX."),
              ("details", .str msg)]) }) ∧
    (∃ fields, (handler env0 cache0 postGoodEvent world0).response.body = .json (.obj fields)) :=
  C9_catch_all_500 env0 cache0 postGoodEvent world0 rfl

/-- The success-path field list, whose keys are drawn from the four
pass-through field names, is never the validation error body's field list. -/
theorem successBody_ne_validation (d : Json) :
    optField "transaction_id" (getField d "transaction_id") ++
      (optField "qr_code_image" (getField d "qr_code_image") ++
        (optField "pix_code" (getField d "pix_code") ++
          optField "status" (getField d "status"))) ≠
    [("error", Json.str "Dados incompletos. Requer: amount, external_id e payer.")] := by
  cases hA : getField d "transaction_id" <;> cases hB : getField d "qr_code_image" <;>
    cases hC : getField d "pix_code" <;> cases hD : getField d "status" <;>
      simp [optField]

/-- The validation 400 body can only be produced by the validation branch:
the request body parsed successfully and one of the three required fields is
missing or falsy. -/
theorem handlerTry_validation_source (env : Env) (st : AuthCache) (ev : Event)
    (w : World) (resp : Response)
    (h : (handlerTry env st ev w).2 = Except.ok resp)
    (hbody : resp.body = Body.json (Json.obj
      [("error", Json.str "Dados incompletos. Requer: amount, external_id e payer.")])) :
    ∃ parsed, ev.body = Except.ok parsed ∧
      (truthyOpt (getField parsed "amount") = false ∨
       truthyOpt (getField parsed "external_id") = false ∨
       truthyOpt (getField parsed "payer") = false) := by
  unfold handlerTry at h
  dsimp only at h
  repeat' split at h
  all_goals try (replace h := Except.ok.inj h; subst h)
  all_goals first
    | (simp_all [successBody_ne_validation]; done)
    | (rename_i hcond
       exact ⟨_, by assumption, by
         have hc3 := hcond
         simp only [Bool.or_eq_true, Bool.not_eq_true'] at hc3
         tauto⟩)

/-- C10: on the POST path, a request whose body is absent or not valid JSON
is answered with 500 — the `JSON.parse` failure reaches the top-level catch
— not with the 400 validation response; and the validation response itself
occurs only when the body parsed successfully and one of the three required
fields is missing or falsy. -/
theorem C10_invalid_json_500 (env : Env) (st : AuthCache) (ev : Event)
    (w : World) (hm : ev.httpMethod = "POST") :
    (∀ msg, ev.body = Except.error msg →
       (handler env st ev w).response.statusCode = 500) ∧
    ((handler env st ev w).response.body =
        .json (.obj [("error", .str "Dados incompletos. Requer: amount, external_id e payer.")]) →
       ∃ parsed, ev.body = Except.ok parsed ∧
         (truthyOpt (getField parsed "amount") = false ∨
          truthyOpt (getField parsed "external_id") = false ∨
          truthyOpt (getField parsed "payer") = false)) := by
  rw [handler, if_neg (by simp [hm]), if_neg (by simp [hm])]
  constructor
  · intro msg hb
    have hT : handlerTry env st ev w =
        ({ cache := st, authCalls := 0, loginCalls := 0, depositCalls := 0,
           depositRequest := none }, Except.error msg) := by
      unfold handlerTry
      rw [hb]
    rw [hT]
  · intro hbody
    rcases h2 : handlerTry env st ev w with ⟨ts, r⟩
    rw [h2] at hbody
    cases r with
    | error msg => simp at hbody
    | ok resp =>
      exact handlerTry_validation_source env st ev w resp (by rw [h2]) hbody

/-- C10 witness: the theorem at a POST request whose body is not valid
JSON. -/
theorem C10_invalid_json_500_witness :
    (∀ msg, Event.body { httpMethod := "POST", body := .error "Unexpected token", host := "example.com" } = Except.error msg →
       (handler env0 cache0 { httpMethod := "POST", body := .error "Unexpected token", host := "example.com" } world0).response.statusCode = 500) ∧
    ((handler env0 cache0 { httpMethod := "POST", body := .error "Unexpected token", host := "example.com" } world0).response.body =
        .json (.obj [("error", .str "Dados incompletos. Requer: amount, external_id e payer.")]) →
       ∃ parsed, Event.body { httpMethod := "POST", body := .error "Unexpected token", host := "example.com" } = Except.ok parsed ∧
         (truthyOpt (getField parsed "amount") = false ∨
          truthyOpt (getField parsed "external_id") = false ∨
          truthyOpt (getField parsed "payer") = false)) :=
  C10_invalid_json_500 env0 cache0
    { httpMethod := "POST", body := .error "Unexpected token", host := "example.com" }
    world0 rfl

/-- C3 witness: the theorem instantiated at a concrete GET request. -/
theorem C3_other_methods_405_witness :
    (handler env0 cache0 getEvent world0).response.statusCode = 405 ∧
    bodyHasErrorField (handler env0 cache0 getEvent world0).response.body = true ∧
    (handler env0 cache0 getEvent world0).authCalls = 0 ∧
    (handler env0 cache0 getEvent world0).depositCalls = 0 :=
  C3_other_methods_405 env0 cache0 getEvent world0 (by decide) (by decide)

end PixBackend
